import Mathlib

/-!
Shallow embedding of the atlas layout and slot-allocation core:
`LightTextureAtlas` (src/src/scene/lighting/light-texture-atlas.js) and
`EnvLighting` (src/unnamed/part_000).

JavaScript numbers are embedded as exact rationals (ℚ); the values the
claims exercise are small dyadic/grid rationals on which JS double
arithmetic is exact for the stated algebraic operations, so ℚ is the
faithful idealisation the spec's statements (exact tiling, exact scaling)
are about.  `Vec4` becomes `Vec4Q`; JS `Math.floor`/`Math.max` become
`Int.floor`/`max`.
-/

namespace Engine

/-- Rectangle / 4-vector as used by the source (`Vec4`): components
`x, y, z, w`; when used as a rectangle, `z` is the width and `w` the
height (spec §3: "mutable 4-tuple: x, y, width, height"). -/
structure Vec4Q where
  x : ℚ
  y : ℚ
  z : ℚ
  w : ℚ
deriving DecidableEq

/-- Componentwise addition, embedding `Vec4.add`. -/
def vecAdd (a b : Vec4Q) : Vec4Q :=
  ⟨a.x + b.x, a.y + b.y, a.z + b.z, a.w + b.w⟩

/-! ## EnvLighting (src/unnamed/part_000) -/

/-- Embeds `calcLevels`: `1 + Math.floor(Math.log2(Math.max(width, height)))`.
All call sites pass powers of two (256, 4, 512), on which the float
`Math.log2` is exact and agrees with `Nat.log 2`. -/
def calcLevels (width : ℕ) (height : ℕ := 0) : ℕ :=
  1 + Nat.log 2 (max width height)

/-- Embeds the halving of a rectangle dimension in the mip loops:
`Math.max(1, Math.floor(v * 0.5))`. -/
def halveClamp (v : ℚ) : ℚ :=
  max 1 ((⌊v * (1/2 : ℚ)⌋ : ℤ) : ℚ)

/-- Loop-body advance of the mip-pyramid loops of `generateAtlas` and
`generatePrefilteredAtlas`: `rect.x += rect.w; rect.y += rect.w;
rect.z = max(1, floor(rect.z * 0.5)); rect.w = max(1, floor(rect.w * 0.5))`.
Note the source adds `rect.w` (the height), to both `x` and `y`. -/
def mipAdvance (r : Vec4Q) : Vec4Q :=
  ⟨r.x + r.w, r.y + r.w, halveClamp r.z, halveClamp r.w⟩

/-- Loop-body advance of the reflection-band loops: `rect.y += rect.w;`
then the same halving of `z` and `w`. -/
def reflAdvance (r : Vec4Q) : Vec4Q :=
  ⟨r.x, r.y + r.w, halveClamp r.z, halveClamp r.w⟩

/-- BRDF distribution names passed to `reprojectTexture` (JS strings). -/
inductive Distribution where
  | ggx
  | lambert
deriving DecidableEq

/-- Argument record of one `reprojectTexture` invocation, restricted to the
layout-relevant fields the core passes. -/
structure ReprojectCall where
  rect : Vec4Q
  numSamples : ℕ
  distribution : Option Distribution
  specularPower : Option ℕ
  seamPixels : ℚ
deriving DecidableEq

/-- Embeds the JS `options?.field || default` idiom on numbers:
`0` (falsy) also falls back to the default. -/
def orDefault (v : Option ℕ) (d : ℕ) : ℕ :=
  match v with
  | none => d
  | some n => if n = 0 then d else n

/-- Options record of `generateAtlas` (layout-relevant fields only,
with the source's defaults applied at the use sites). -/
structure AtlasOptions where
  size : ℕ := 512
  numReflectionSamples : Option ℕ := none
  numAmbientSamples : Option ℕ := none
  distribution : Option Distribution := none

/-- Mip-pyramid loop of `generateAtlas` / `generatePrefilteredAtlas`:
emits one `reprojectTexture` call (`numSamples: 1`) per iteration on the
current rectangle, then advances it with `mipAdvance`. -/
def mipLoop (s : ℚ) : ℕ → Vec4Q → List ReprojectCall
  | 0, _ => []
  | n + 1, r =>
      { rect := r, numSamples := 1, distribution := Option.none,
        specularPower := Option.none, seamPixels := s } :: mipLoop s n (mipAdvance r)

/-- Reflection-band loop of `generateAtlas`: for `i = 1..6`, emits one
call with the configured sample count, distribution and a specular power
`Math.max(1, 2048 >> (i * 2))`, then advances with `reflAdvance`. -/
def reflLoop (numSamples : ℕ) (dist : Distribution) (s : ℚ) :
    ℕ → ℕ → Vec4Q → List ReprojectCall
  | 0, _, _ => []
  | n + 1, i, r =>
      { rect := r, numSamples := numSamples, distribution := some dist,
        specularPower := some (max 1 (2048 >>> (i * 2))), seamPixels := s }
        :: reflLoop numSamples dist s n (i + 1) (reflAdvance r)

/-- Mip-pyramid section of `generateAtlas` at scale `s = size / 512`:
starts at `(0, 0, 512·s, 256·s)` and runs `calcLevels(256) − calcLevels(4)`
iterations. -/
def atlasMipSection (s : ℚ) : List ReprojectCall :=
  mipLoop s (calcLevels 256 - calcLevels 4) ⟨0, 0, 512 * s, 256 * s⟩

/-- Reflection-band section of `generateAtlas` at scale `s`: rectangle
reset to `(0, 256·s, 256·s, 128·s)`, loop `for (i = 1; i < 7; ++i)`. -/
def atlasReflSection (opts : AtlasOptions) (s : ℚ) : List ReprojectCall :=
  reflLoop (orDefault opts.numReflectionSamples 1024)
    (opts.distribution.getD Distribution.ggx) s 6 1 ⟨0, 256 * s, 256 * s, 128 * s⟩

/-- Ambient call of `generateAtlas` at scale `s`: single call on the fixed
rectangle `(128·s, (256+128)·s, 64·s, 32·s)` with the `lambert`
distribution. -/
def atlasAmbientCall (opts : AtlasOptions) (s : ℚ) : ReprojectCall :=
  { rect := ⟨128 * s, (256 + 128) * s, 64 * s, 32 * s⟩,
    numSamples := orDefault opts.numAmbientSamples 2048,
    distribution := some Distribution.lambert,
    specularPower := Option.none, seamPixels := s }

/-- Sequence of `reprojectTexture` invocations emitted by one
`generateAtlas` pass, in source order: mip pyramid, reflection band,
ambient patch.  `s = result.width / 512`. -/
def generateAtlasCalls (opts : AtlasOptions) : List ReprojectCall :=
  let s : ℚ := (opts.size : ℚ) / 512
  atlasMipSection s ++ atlasReflSection opts s ++ [atlasAmbientCall opts s]

/-- Mip-pyramid section of `generatePrefilteredAtlas` at scale `s`: same
start rectangle and loop body as `generateAtlas`, but
`levels = calcLevels(512)` iterations. -/
def prefilteredMipSection (s : ℚ) : List ReprojectCall :=
  mipLoop s (calcLevels 512) ⟨0, 0, 512 * s, 256 * s⟩

/-! ## LightTextureAtlas (src/src/scene/lighting/light-texture-atlas.js) -/

/-- Light types from `constants.js`; the atlas code tests
`light._type === LIGHTTYPE_SPOT`. -/
inductive LightType where
  | directional
  | omni
  | spot
deriving DecidableEq

/-- The fields of a scene light that `LightTextureAtlas.update` reads
(`visibleThisFrame`, `castShadows`, `numShadowFaces`, `_type`), plus an
identifier standing for the light object's identity. -/
structure Light where
  id : ℕ
  lightType : LightType
  visibleThisFrame : Bool
  castShadows : Bool
  numShadowFaces : ℕ
deriving DecidableEq

/-- Modelled from the spec: the per-light shadow face count accessor
(`Light.numShadowFaces`, defined outside src/): "spot lights use 1 face,
other types may require more, e.g. point lights needing 6"; directional
lights do not pass through this atlas path and are given 1 face. -/
def specNumShadowFaces : LightType → ℕ
  | LightType.spot => 1
  | LightType.omni => 6
  | LightType.directional => 1

/-- Render target of a shadow map; `updateUniforms` reads
`renderTargets[0].depthBuffer` / `.colorBuffer` (buffers stand in as
opaque handles). -/
structure RenderTargetM where
  depthBuffer : ℕ
  colorBuffer : ℕ
deriving DecidableEq

/-- Shadow-map object: texture width, render-target list and the `cached`
flag that `allocateShadowMap` clears. -/
structure ShadowMapM where
  textureWidth : ℚ
  renderTargets : List RenderTargetM
  cached : Bool
deriving DecidableEq

/-- Modelled from the spec: `ShadowMap.createAtlas(device, resolution, ...)`
(defined outside src/) produces a shadow map whose texture has the
requested resolution and which carries one render target whose buffers the
shader binding step reads (spec §4.2 step 5). -/
def createAtlasShadowMap (resolution : ℚ) : ShadowMapM :=
  { textureWidth := resolution, renderTargets := [⟨0, 0⟩], cached := true }

/-- Device fields the atlas reads (`device.webgl2` selects the depth
buffer in `updateUniforms`). -/
structure DeviceM where
  webgl2 : Bool
deriving DecidableEq

/-- Mutable state of a `LightTextureAtlas` instance: `subdivision`, the
configured `shadowMapResolution`, the shared `shadowMap` (nullable) and the
slot list. -/
structure AtlasState where
  device : DeviceM
  subdivision : ℕ
  shadowMapResolution : ℚ
  shadowMap : Option ShadowMapM
  slots : List Vec4Q
deriving DecidableEq

/-- Embeds `allocateShadowMap(resolution)`: recreate the shared map when
there is none or its texture width differs, and mark it `cached = false`;
otherwise leave the state alone.  The boolean reports whether an
allocation happened. -/
def allocateShadowMap (st : AtlasState) (resolution : ℚ) : AtlasState × Bool :=
  match st.shadowMap with
  | none =>
      ({ st with shadowMap := some { createAtlasShadowMap resolution with cached := false } }, true)
  | some sm =>
      if sm.textureWidth ≠ resolution then
        ({ st with shadowMap := some { createAtlasShadowMap resolution with cached := false } }, true)
      else (st, false)

/-- Embeds the constructor: `subdivision = 0`,
`shadowMapResolution = 2048`, `shadowMap = null`, empty `slots`, then
`allocateShadowMap(1)` for the placeholder map. -/
def mkLightTextureAtlas (device : DeviceM) : AtlasState :=
  (allocateShadowMap
    { device := device, subdivision := 0, shadowMapResolution := 2048,
      shadowMap := none, slots := [] } 1).1

/-- Embeds `Math.ceil(Math.sqrt(n))` on a natural light count (exact for
the double-precision sqrt on these magnitudes): the floor square root,
bumped by one unless `n` is a perfect square. -/
def ceilSqrt (n : ℕ) : ℕ :=
  if Nat.sqrt n * Nat.sqrt n = n then Nat.sqrt n else Nat.sqrt n + 1

/-- Slot rectangle `(i·invSize, j·invSize, invSize, invSize)` with
`invSize = 1 / gridSize`, as pushed by `subdivide`. -/
def slotAt (gridSize : ℕ) (i j : ℕ) : Vec4Q :=
  ⟨(i : ℚ) * (1 / (gridSize : ℚ)), (j : ℚ) * (1 / (gridSize : ℚ)),
    1 / (gridSize : ℚ), 1 / (gridSize : ℚ)⟩

/-- Slot list built by the rebuild branch of `subdivide`: the double loop
`for (i = 0; i < gridSize; i++) for (j = 0; j < gridSize; j++) push(...)`,
i.e. the row-major `(i, j)` enumeration. -/
def gridSlots (gridSize : ℕ) : List Vec4Q :=
  (List.range gridSize).flatMap (fun i =>
    (List.range gridSize).map (fun j => slotAt gridSize i j))

/-- Embeds `subdivide(numLights)`: compute
`gridSize = ceil(sqrt(numLights))`; when it differs from the stored
`subdivision`, store it and rebuild `slots` as the row-major
`gridSize × gridSize` grid; otherwise do nothing. -/
def subdivide (st : AtlasState) (numLights : ℕ) : AtlasState :=
  let gridSize := ceilSqrt numLights
  if st.subdivision ≠ gridSize then
    { st with
      subdivision := gridSize
      slots := gridSlots gridSize }
  else st

/-- Embeds `updateUniforms`: reads `shadowMap.renderTargets[0]` and binds
the depth buffer on WebGL2 (the PCF path, `isShadowFilterPcf = true`) else
the color buffer, together with the scalar resolution.  A missing shadow
map or empty render-target list would throw in JS; the model returns
`none` there. -/
def updateUniforms (st : AtlasState) : Option (ℕ × ℚ) :=
  match st.shadowMap with
  | none => none
  | some sm =>
      match sm.renderTargets.head? with
      | none => none
      | some rt =>
          some (if st.device.webgl2 then rt.depthBuffer else rt.colorBuffer,
            st.shadowMapResolution)

/-- Per-face outcome of the assignment loop of `update`: which light and
face got which slot, the viewport/scissor rectangles written to
`lightRenderData`, and the `light._shadowMap` back-reference. -/
structure FaceRecord where
  lightId : ℕ
  lightType : LightType
  face : ℕ
  slotIndex : ℕ
  shadowViewport : Vec4Q
  shadowScissor : Vec4Q
  shadowMapRef : Option ShadowMapM
deriving DecidableEq

/-- Assignment loop of `update`: walks the filtered lights in order,
assigns each face the slot at the running `usedCount`, writes the slot to
both viewport and scissor, and shrinks the viewport by `scissorVec` for
spot lights.  A JS out-of-range `slots[usedCount]` would be `undefined`
and throw on `.copy`; the model substitutes a zero rectangle (the claims
never reach that case). -/
def assignFaces (slots : List Vec4Q) (sm : Option ShadowMapM) (scissorVec : Vec4Q) :
    List Light → ℕ → List FaceRecord
  | [], _ => []
  | l :: ls, used =>
      ((List.range l.numShadowFaces).map fun face =>
        let slot := slots.getD (used + face) ⟨0, 0, 0, 0⟩
        { lightId := l.id, lightType := l.lightType, face := face,
          slotIndex := used + face,
          shadowViewport :=
            if l.lightType = LightType.spot then vecAdd slot scissorVec else slot,
          shadowScissor := slot, shadowMapRef := sm })
      ++ assignFaces slots sm scissorVec ls (used + l.numShadowFaces)

/-- Result of one `update` call: the new state, the per-face writes, the
resolutions of any shadow-map allocations performed, the argument passed
to `subdivide` (if it was invoked), the final `usedCount`, and the uniform
values bound by `updateUniforms`. -/
structure UpdateResult where
  state : AtlasState
  records : List FaceRecord
  allocations : List ℚ
  subdivideArg : Option ℕ
  usedCount : ℕ
  uniforms : Option (ℕ × ℚ)
deriving DecidableEq

/-- Embeds `update(spotLights, omniLights)`: filter the spot lights that
are visible this frame and cast shadows (the omni list is accepted but
never inspected, as in the source); if any remain, allocate the shared
map at `shadowMapResolution` and `subdivide(lights.length)`; then run the
assignment loop with `scissorVec = (m, m, −2m, −2m)`, `m = 4 / resolution`,
and finally `updateUniforms`. -/
def update (st : AtlasState) (spotLights omniLights : List Light) : UpdateResult :=
  let lights := spotLights.filter fun l => l.visibleThisFrame && l.castShadows
  let step :=
    if 0 < lights.length then
      let alloc := allocateShadowMap st st.shadowMapResolution
      (subdivide alloc.1 lights.length,
        if alloc.2 then [st.shadowMapResolution] else [],
        some lights.length)
    else (st, [], none)
  let st1 := step.1
  let scissorOffset : ℚ := 4 / st.shadowMapResolution
  let scissorVec : Vec4Q :=
    ⟨scissorOffset, scissorOffset, -2 * scissorOffset, -2 * scissorOffset⟩
  { state := st1,
    records := assignFaces st1.slots st1.shadowMap scissorVec lights 0,
    allocations := step.2.1,
    subdivideArg := step.2.2,
    usedCount := lights.foldl (fun acc l => acc + l.numShadowFaces) 0,
    uniforms := updateUniforms st1 }

/-- States reachable through the public entry points, from construction
onward. -/
inductive Reachable : AtlasState → Prop where
  | init (device : DeviceM) : Reachable (mkLightTextureAtlas device)
  | step_update (st : AtlasState) (sp om : List Light) :
      Reachable st → Reachable (update st sp om).state
  | step_allocate (st : AtlasState) (r : ℚ) :
      Reachable st → Reachable (allocateShadowMap st r).1
  | step_subdivide (st : AtlasState) (n : ℕ) :
      Reachable st → Reachable (subdivide st n)

/-! ## Geometric predicates used by the claims -/

/-- Two rectangles overlap when their interiors meet: the open coordinate
ranges intersect on both axes.  Rectangles that merely share an edge do
not overlap. -/
def rectsOverlap (a b : Vec4Q) : Prop :=
  a.x < b.x + b.z ∧ b.x < a.x + a.z ∧ a.y < b.y + b.w ∧ b.y < a.y + a.w

/-- Rectangle lies inside the axis-aligned square `[0, bound]²`. -/
def rectInBounds (bound : ℚ) (r : Vec4Q) : Prop :=
  0 ≤ r.x ∧ 0 ≤ r.y ∧ r.x + r.z ≤ bound ∧ r.y + r.w ≤ bound

/-- Rectangle rescaled to normalized atlas units (divide by the atlas
pixel size). -/
def normRect (size : ℚ) (r : Vec4Q) : Vec4Q :=
  ⟨r.x / size, r.y / size, r.z / size, r.w / size⟩

/-- Integer quadruple `(x, y, width, height)`; the unit-scale pixel
rectangles of the `generateAtlas` layout. -/
abbrev NatQuad := ℕ × ℕ × ℕ × ℕ

/-- Pixel rectangle of a quad at integer scale `m` (atlas size `512·m`). -/
def quadToRect (m : ℕ) (q : NatQuad) : Vec4Q :=
  ⟨(q.1 : ℚ) * m, (q.2.1 : ℚ) * m, (q.2.2.1 : ℚ) * m, (q.2.2.2 : ℚ) * m⟩

/-- Overlap test on integer quads, mirroring `rectsOverlap`. -/
def natQuadsOverlap (a b : NatQuad) : Prop :=
  a.1 < b.1 + b.2.2.1 ∧ b.1 < a.1 + a.2.2.1 ∧
    a.2.1 < b.2.1 + b.2.2.2 ∧ b.2.1 < a.2.1 + a.2.2.2

instance (a b : NatQuad) : Decidable (natQuadsOverlap a b) := by
  unfold natQuadsOverlap; infer_instance

/-- Rectangle scaled by a factor `t` in all four components. -/
def scaleRect (t : ℚ) (r : Vec4Q) : Vec4Q :=
  ⟨t * r.x, t * r.y, t * r.z, t * r.w⟩

/-- Reference-resolution (512) pixel rectangles of the 13 destination
regions of one default-options `generateAtlas` pass, in emission order:
6 mip-pyramid levels, 6 reflection-band levels, 1 ambient patch. -/
def atlasQuads : List NatQuad :=
  [(0, 0, 512, 256), (256, 256, 256, 128), (384, 384, 128, 64),
    (448, 448, 64, 32), (480, 480, 32, 16), (496, 496, 16, 8),
    (0, 256, 256, 128), (0, 384, 128, 64), (0, 448, 64, 32),
    (0, 480, 32, 16), (0, 496, 16, 8), (0, 504, 8, 4),
    (128, 384, 64, 32)]

/-! ## Helper lemmas -/

theorem ceilSqrt_spec (n : ℕ) :
    n ≤ ceilSqrt n * ceilSqrt n ∧ ∀ g, g < ceilSqrt n → g * g < n := by
  unfold ceilSqrt
  by_cases h : Nat.sqrt n * Nat.sqrt n = n
  · rw [if_pos h]
    refine ⟨le_of_eq h.symm, fun g hg => ?_⟩
    have h1 : (g + 1) * (g + 1) ≤ n := Nat.le_sqrt.mp hg
    have h2 : g * g < (g + 1) * (g + 1) := Nat.mul_self_lt_mul_self (Nat.lt_succ_self g)
    exact lt_of_lt_of_le h2 h1
  · rw [if_neg h]
    refine ⟨le_of_lt (Nat.lt_succ_sqrt n), fun g hg => ?_⟩
    have h1 : g ≤ Nat.sqrt n := Nat.lt_succ_iff.mp hg
    have h2 : g * g ≤ Nat.sqrt n * Nat.sqrt n := Nat.mul_self_le_mul_self h1
    have h3 : Nat.sqrt n * Nat.sqrt n < n := lt_of_le_of_ne (Nat.sqrt_le n) h
    exact lt_of_le_of_lt h2 h3

theorem ceilSqrt_eq_of (n g : ℕ) (h1 : n ≤ g * g) (h2 : ∀ k, k < g → k * k < n) :
    ceilSqrt n = g := by
  obtain ⟨s1, s2⟩ := ceilSqrt_spec n
  rcases Nat.lt_trichotomy (ceilSqrt n) g with h | h | h
  · exact absurd s1 (not_le.mpr (h2 _ h))
  · exact h
  · exact absurd h1 (not_le.mpr (s2 _ h))

theorem ceilSqrt_five : ceilSqrt 5 = 3 :=
  ceilSqrt_eq_of 5 3 (by norm_num) (by decide)

theorem ceilSqrt_six : ceilSqrt 6 = 3 :=
  ceilSqrt_eq_of 6 3 (by norm_num) (by decide)

theorem ceilSqrt_two : ceilSqrt 2 = 2 :=
  ceilSqrt_eq_of 2 2 (by norm_num) (by decide)

theorem ceilSqrt_pos (n : ℕ) (hn : 0 < n) : 0 < ceilSqrt n := by
  obtain ⟨s1, _⟩ := ceilSqrt_spec n
  by_contra h
  rw [Nat.eq_zero_of_not_pos h] at s1
  omega

theorem subdivide_subdivision (st : AtlasState) (n : ℕ) :
    (subdivide st n).subdivision = ceilSqrt n := by
  by_cases h : st.subdivision ≠ ceilSqrt n
  · simp [subdivide, h]
  · push_neg at h
    simp [subdivide, h]

theorem subdivide_slots_rebuild (st : AtlasState) (n : ℕ)
    (h : st.subdivision ≠ ceilSqrt n) :
    (subdivide st n).slots = gridSlots (ceilSqrt n) := by
  simp [subdivide, h]

theorem subdivide_noop (st : AtlasState) (n : ℕ) (h : st.subdivision = ceilSqrt n) :
    subdivide st n = st := by
  simp [subdivide, h]

theorem flatMap_grid {α : Type} (g : ℕ) (hg : 0 < g) (f : ℕ → ℕ → α) (n : ℕ) :
    (List.range n).flatMap (fun i => (List.range g).map (f i)) =
      (List.range (n * g)).map (fun k => f (k / g) (k % g)) := by
  induction n with
  | zero => simp
  | succ n ih =>
      rw [List.range_succ, List.flatMap_append, ih, Nat.succ_mul, List.range_add,
        List.map_append, List.flatMap_singleton, List.map_map]
      congr 1
      refine List.map_congr_left fun x hx => ?_
      have hx' : x < g := List.mem_range.mp hx
      have hd : (n * g + x) / g = n := by
        rw [Nat.mul_comm n g, Nat.mul_add_div hg, Nat.div_eq_of_lt hx', Nat.add_zero]
      have hm : (n * g + x) % g = x := by
        rw [Nat.mul_comm n g, Nat.mul_add_mod, Nat.mod_eq_of_lt hx']
      simp [Function.comp, hd, hm]

theorem gridSlots_eq_rangeMap (g : ℕ) (hg : 0 < g) :
    gridSlots g = (List.range (g * g)).map (fun k => slotAt g (k / g) (k % g)) :=
  flatMap_grid g hg (slotAt g) g

theorem gridSlots_length (g : ℕ) (hg : 0 < g) : (gridSlots g).length = g * g := by
  rw [gridSlots_eq_rangeMap g hg, List.length_map, List.length_range]

theorem gridSlots_getD (g : ℕ) (hg : 0 < g) (i j : ℕ) (hi : i < g) (hj : j < g) :
    (gridSlots g).getD (i * g + j) ⟨0, 0, 0, 0⟩ = slotAt g i j := by
  have hk : i * g + j < g * g := by
    calc i * g + j < i * g + g := by omega
    _ = (i + 1) * g := by ring
    _ ≤ g * g := Nat.mul_le_mul_right g (by omega)
  have hlen : i * g + j < (gridSlots g).length := by rw [gridSlots_length g hg]; exact hk
  rw [List.getD_eq_getElem _ _ hlen]
  have hd : (i * g + j) / g = i := by
    rw [Nat.mul_comm i g, Nat.mul_add_div hg, Nat.div_eq_of_lt hj, Nat.add_zero]
  have hm : (i * g + j) % g = j := by
    rw [Nat.mul_comm i g, Nat.mul_add_mod, Nat.mod_eq_of_lt hj]
  simp only [gridSlots_eq_rangeMap g hg, List.getElem_map, List.getElem_range, hd, hm]

theorem slotAt_disjoint (g i j i2 j2 : ℕ) (hg : 0 < g) (h : i ≠ i2 ∨ j ≠ j2) :
    ¬ rectsOverlap (slotAt g i j) (slotAt g i2 j2) := by
  have hgq : (0 : ℚ) < 1 / (g : ℚ) := by positivity
  rintro ⟨h1, h2, h3, h4⟩
  simp only [slotAt] at h1 h2 h3 h4
  have e1 : (i : ℚ) * (1 / g) < ((i2 : ℚ) + 1) * (1 / g) := by ring_nf at h1 ⊢; linarith
  have e2 : (i2 : ℚ) * (1 / g) < ((i : ℚ) + 1) * (1 / g) := by ring_nf at h2 ⊢; linarith
  have e3 : (j : ℚ) * (1 / g) < ((j2 : ℚ) + 1) * (1 / g) := by ring_nf at h3 ⊢; linarith
  have e4 : (j2 : ℚ) * (1 / g) < ((j : ℚ) + 1) * (1 / g) := by ring_nf at h4 ⊢; linarith
  have f1 : i < i2 + 1 := by
    have := (mul_lt_mul_right hgq).mp e1
    exact_mod_cast this
  have f2 : i2 < i + 1 := by
    have := (mul_lt_mul_right hgq).mp e2
    exact_mod_cast this
  have f3 : j < j2 + 1 := by
    have := (mul_lt_mul_right hgq).mp e3
    exact_mod_cast this
  have f4 : j2 < j + 1 := by
    have := (mul_lt_mul_right hgq).mp e4
    exact_mod_cast this
  omega

theorem gridSlots_pairwise (g : ℕ) (hg : 0 < g) :
    List.Pairwise (fun a b => ¬ rectsOverlap a b) (gridSlots g) := by
  rw [gridSlots_eq_rangeMap g hg]
  rw [List.pairwise_map]
  refine List.Pairwise.imp ?_ (List.pairwise_lt_range (g * g))
  intro k k2 hkk
  refine slotAt_disjoint g _ _ _ _ hg ?_
  by_contra hc
  push_neg at hc
  obtain ⟨hq, hr⟩ := hc
  have d1 := Nat.div_add_mod k g
  have d2 := Nat.div_add_mod k2 g
  rw [hq, hr] at d1
  omega

theorem slotAt_mem (g i j : ℕ) (hi : i < g) (hj : j < g) :
    slotAt g i j ∈ gridSlots g :=
  List.mem_flatMap.mpr
    ⟨i, List.mem_range.mpr hi, List.mem_map.mpr ⟨j, List.mem_range.mpr hj, rfl⟩⟩

theorem pick_interval (g : ℕ) (hg : 0 < g) (p : ℚ) (hp0 : 0 ≤ p) (hp1 : p ≤ 1) :
    ∃ i, i < g ∧ (i : ℚ) * (1 / g) ≤ p ∧ p ≤ ((i : ℚ) + 1) * (1 / g) := by
  have hgq : (0 : ℚ) < (g : ℚ) := by exact_mod_cast hg
  have hf0 : 0 ≤ ⌊p * g⌋ := Int.floor_nonneg.mpr (by positivity)
  refine ⟨min (⌊p * g⌋).toNat (g - 1), by omega, ?_, ?_⟩
  · rw [mul_one_div, div_le_iff hgq]
    calc ((min (⌊p * g⌋).toNat (g - 1) : ℕ) : ℚ)
        ≤ ((⌊p * g⌋.toNat : ℕ) : ℚ) := by exact_mod_cast Nat.min_le_left _ _
      _ = (⌊p * g⌋ : ℚ) := by exact_mod_cast Int.toNat_of_nonneg hf0
      _ ≤ p * g := Int.floor_le _
  · rw [mul_one_div, le_div_iff hgq]
    by_cases hc : ⌊p * g⌋.toNat ≤ g - 1
    · rw [Nat.min_eq_left hc]
      have hlt : p * g < ⌊p * g⌋ + 1 := Int.lt_floor_add_one _
      have : ((⌊p * g⌋.toNat : ℕ) : ℚ) = (⌊p * g⌋ : ℚ) := by
        exact_mod_cast Int.toNat_of_nonneg hf0
      linarith
    · rw [Nat.min_eq_right (by omega)]
      have hcast : ((g - 1 : ℕ) : ℚ) = (g : ℚ) - 1 := by
        have : (1 : ℕ) ≤ g := hg
        push_cast [this]
        ring
      rw [hcast]
      have : p * g ≤ 1 * g := by
        exact mul_le_mul_of_nonneg_right hp1 (le_of_lt hgq)
      linarith

theorem gridSlots_cover (g : ℕ) (hg : 0 < g) (p q : ℚ)
    (hp0 : 0 ≤ p) (hp1 : p ≤ 1) (hq0 : 0 ≤ q) (hq1 : q ≤ 1) :
    ∃ r ∈ gridSlots g, r.x ≤ p ∧ p ≤ r.x + r.z ∧ r.y ≤ q ∧ q ≤ r.y + r.w := by
  obtain ⟨i, hi, hi1, hi2⟩ := pick_interval g hg p hp0 hp1
  obtain ⟨j, hj, hj1, hj2⟩ := pick_interval g hg q hq0 hq1
  refine ⟨slotAt g i j, slotAt_mem g i j hi hj, ?_, ?_, ?_, ?_⟩ <;>
    simp only [slotAt] <;> ring_nf <;> ring_nf at hi1 hi2 hj1 hj2 <;> linarith

theorem gridSlots_area (g : ℕ) (hg : 0 < g) :
    ((gridSlots g).map (fun r => r.z * r.w)).sum = 1 := by
  have hgq : ((g : ℚ)) ≠ 0 := by
    exact_mod_cast Nat.pos_iff_ne_zero.mp hg
  rw [gridSlots_eq_rangeMap g hg, List.map_map]
  have hfun : ((fun r : Vec4Q => r.z * r.w) ∘ fun k => slotAt g (k / g) (k % g)) =
      fun _ => (1 / (g : ℚ)) * (1 / g) := by
    funext k
    simp [slotAt]
  rw [hfun, List.map_const', List.sum_replicate, List.length_range, nsmul_eq_mul]
  push_cast
  field_simp

/-! ## Claim theorems -/

/-- C1: for every positive `numLights`, `subdivide(numLights)` computes
`gridSize = ceil(sqrt(numLights))` (characterised as the least `g` with
`numLights ≤ g²`), stores it, and — whenever it differs from the stored
subdivision — rebuilds the slot list as exactly `gridSize²` rectangles of
size `(1/gridSize, 1/gridSize)` in row-major order
`(i, j) ↦ (i/gridSize, j/gridSize, 1/gridSize, 1/gridSize)`; these
rectangles are pairwise non-overlapping and tile `[0,1] × [0,1]` exactly:
every point of the unit square lies in some slot and the slot areas sum
to 1. -/
theorem C1_subdivide_tiling (st : AtlasState) (n : ℕ) (hn : 0 < n) :
    (n ≤ ceilSqrt n * ceilSqrt n ∧ ∀ g, g < ceilSqrt n → g * g < n) ∧
    (subdivide st n).subdivision = ceilSqrt n ∧
    (st.subdivision ≠ ceilSqrt n →
      (subdivide st n).slots = gridSlots (ceilSqrt n) ∧
      (subdivide st n).slots.length = ceilSqrt n * ceilSqrt n ∧
      (∀ i j, i < ceilSqrt n → j < ceilSqrt n →
        (subdivide st n).slots.getD (i * ceilSqrt n + j) ⟨0, 0, 0, 0⟩ =
          slotAt (ceilSqrt n) i j) ∧
      List.Pairwise (fun a b => ¬ rectsOverlap a b) (subdivide st n).slots ∧
      (∀ p q : ℚ, 0 ≤ p → p ≤ 1 → 0 ≤ q → q ≤ 1 →
        ∃ r ∈ (subdivide st n).slots,
          r.x ≤ p ∧ p ≤ r.x + r.z ∧ r.y ≤ q ∧ q ≤ r.y + r.w) ∧
      ((subdivide st n).slots.map (fun r => r.z * r.w)).sum = 1) := by
  have hg := ceilSqrt_pos n hn
  refine ⟨ceilSqrt_spec n, subdivide_subdivision st n, fun hne => ?_⟩
  have hs := subdivide_slots_rebuild st n hne
  rw [hs]
  exact ⟨rfl, gridSlots_length _ hg,
    fun i j hi hj => gridSlots_getD _ hg i j hi hj,
    gridSlots_pairwise _ hg,
    fun p q hp0 hp1 hq0 hq1 => gridSlots_cover _ hg p q hp0 hp1 hq0 hq1,
    gridSlots_area _ hg⟩

/-- Witness for C1: the tiling conclusion instantiated at a fresh atlas
and `numLights = 5`. -/
theorem C1_subdivide_tiling_witness :
    0 < 5 ∧
    ((5 ≤ ceilSqrt 5 * ceilSqrt 5 ∧ ∀ g, g < ceilSqrt 5 → g * g < 5) ∧
     (subdivide (mkLightTextureAtlas ⟨true⟩) 5).subdivision = ceilSqrt 5 ∧
     ((mkLightTextureAtlas ⟨true⟩).subdivision ≠ ceilSqrt 5 →
       (subdivide (mkLightTextureAtlas ⟨true⟩) 5).slots = gridSlots (ceilSqrt 5) ∧
       (subdivide (mkLightTextureAtlas ⟨true⟩) 5).slots.length =
         ceilSqrt 5 * ceilSqrt 5 ∧
       (∀ i j, i < ceilSqrt 5 → j < ceilSqrt 5 →
         (subdivide (mkLightTextureAtlas ⟨true⟩) 5).slots.getD
           (i * ceilSqrt 5 + j) ⟨0, 0, 0, 0⟩ = slotAt (ceilSqrt 5) i j) ∧
       List.Pairwise (fun a b => ¬ rectsOverlap a b)
         (subdivide (mkLightTextureAtlas ⟨true⟩) 5).slots ∧
       (∀ p q : ℚ, 0 ≤ p → p ≤ 1 → 0 ≤ q → q ≤ 1 →
         ∃ r ∈ (subdivide (mkLightTextureAtlas ⟨true⟩) 5).slots,
           r.x ≤ p ∧ p ≤ r.x + r.z ∧ r.y ≤ q ∧ q ≤ r.y + r.w) ∧
       ((subdivide (mkLightTextureAtlas ⟨true⟩) 5).slots.map
           (fun r => r.z * r.w)).sum = 1)) :=
  ⟨by norm_num, C1_subdivide_tiling (mkLightTextureAtlas ⟨true⟩) 5 (by norm_num)⟩

theorem subdivide_shadowMap (st : AtlasState) (n : ℕ) :
    (subdivide st n).shadowMap = st.shadowMap := by
  by_cases h : st.subdivision ≠ ceilSqrt n <;> simp [subdivide, h]

theorem allocateShadowMap_inv (st : AtlasState) (r : ℚ)
    (h : ∀ sm, st.shadowMap = some sm → sm.renderTargets ≠ []) :
    ∃ sm, (allocateShadowMap st r).1.shadowMap = some sm ∧ sm.renderTargets ≠ [] := by
  unfold allocateShadowMap
  cases hsm : st.shadowMap with
  | none =>
      exact ⟨{ createAtlasShadowMap r with cached := false }, rfl,
        by simp [createAtlasShadowMap]⟩
  | some sm =>
      dsimp only
      by_cases hw : sm.textureWidth ≠ r
      · rw [if_pos hw]
        exact ⟨{ createAtlasShadowMap r with cached := false }, rfl,
          by simp [createAtlasShadowMap]⟩
      · rw [if_neg hw]
        exact ⟨sm, hsm, h sm hsm⟩

theorem update_state_inv (st : AtlasState) (sp om : List Light)
    (h : ∃ sm, st.shadowMap = some sm ∧ sm.renderTargets ≠ []) :
    ∃ sm, (update st sp om).state.shadowMap = some sm ∧ sm.renderTargets ≠ [] := by
  unfold update
  dsimp only
  by_cases hl :
      0 < (sp.filter fun l => l.visibleThisFrame && l.castShadows).length
  · rw [if_pos hl]
    dsimp only
    rw [subdivide_shadowMap]
    refine allocateShadowMap_inv st st.shadowMapResolution ?_
    intro sm hsm
    obtain ⟨sm2, hsm2, hne⟩ := h
    rw [hsm] at hsm2
    have hEq : sm = sm2 := Option.some_inj.mp hsm2
    rw [hEq]
    exact hne
  · rw [if_neg hl]
    exact h

theorem update_records_eq (st : AtlasState) (sp om : List Light) :
    (update st sp om).records =
      assignFaces (update st sp om).state.slots (update st sp om).state.shadowMap
        ⟨4 / st.shadowMapResolution, 4 / st.shadowMapResolution,
          -2 * (4 / st.shadowMapResolution), -2 * (4 / st.shadowMapResolution)⟩
        (sp.filter fun l => l.visibleThisFrame && l.castShadows) 0 :=
  rfl

theorem assignFaces_mem (slots : List Vec4Q) (sm : Option ShadowMapM) (sv : Vec4Q)
    (ls : List Light) (used : ℕ) (r : FaceRecord)
    (hr : r ∈ assignFaces slots sm sv ls used) :
    r.shadowScissor = slots.getD r.slotIndex ⟨0, 0, 0, 0⟩ ∧
    r.shadowViewport = (if r.lightType = LightType.spot
        then vecAdd (slots.getD r.slotIndex ⟨0, 0, 0, 0⟩) sv
        else slots.getD r.slotIndex ⟨0, 0, 0, 0⟩) ∧
    r.shadowMapRef = sm := by
  induction ls generalizing used with
  | nil => simp [assignFaces] at hr
  | cons l ls ih =>
      simp only [assignFaces, List.mem_append] at hr
      rcases hr with h | h
      · obtain ⟨face, hface, rfl⟩ := List.mem_map.mp h
        exact ⟨rfl, rfl, rfl⟩
      · exact ih _ h

/-- C9: an `update` call with zero qualifying lights (no spot light that
is both visible this frame and shadow-casting) performs no shadow-map
allocation, writes no render data, and leaves the whole state — slot
grid, subdivision and shadow-map texture — exactly as it was. -/
theorem C9_update_idle (st : AtlasState) (sp om : List Light)
    (h : sp.filter (fun l => l.visibleThisFrame && l.castShadows) = []) :
    (update st sp om).state = st ∧ (update st sp om).allocations = [] ∧
      (update st sp om).records = [] := by
  unfold update
  simp [h, assignFaces]

/-- Witness for C9: a fresh atlas updated with one invisible spot light. -/
theorem C9_update_idle_witness :
    ([Light.mk 7 LightType.spot false true 1].filter
        (fun l => l.visibleThisFrame && l.castShadows) = []) ∧
    ((update (mkLightTextureAtlas ⟨true⟩) [⟨7, LightType.spot, false, true, 1⟩]
        []).state = mkLightTextureAtlas ⟨true⟩ ∧
      (update (mkLightTextureAtlas ⟨true⟩) [⟨7, LightType.spot, false, true, 1⟩]
        []).allocations = [] ∧
      (update (mkLightTextureAtlas ⟨true⟩) [⟨7, LightType.spot, false, true, 1⟩]
        []).records = []) :=
  ⟨rfl, C9_update_idle _ _ _ rfl⟩

/-- C2: when at least one qualifying light exists, `update` resizes the
grid to the total required face count: the `subdivide` argument (the
qualifying-light count in the source) equals the sum of the qualifying
lights' face counts, because every qualifying light comes from the
spot-light list and a spot light has exactly one shadow face
(`specNumShadowFaces`, modelled from the spec). -/
theorem C2_update_subdivide_total_faces (st : AtlasState) (sp om : List Light)
    (hne : sp.filter (fun l => l.visibleThisFrame && l.castShadows) ≠ [])
    (hspot : ∀ l ∈ sp, l.lightType = LightType.spot ∧
      l.numShadowFaces = specNumShadowFaces l.lightType) :
    (update st sp om).subdivideArg =
      some (((sp.filter (fun l => l.visibleThisFrame && l.castShadows)).map
          (fun l => l.numShadowFaces)).sum) := by
  have hlen : 0 < (sp.filter (fun l => l.visibleThisFrame && l.castShadows)).length :=
    List.length_pos.mpr hne
  have hone : ∀ l ∈ sp.filter (fun l => l.visibleThisFrame && l.castShadows),
      l.numShadowFaces = 1 := by
    intro l hl
    obtain ⟨ht, hf⟩ := hspot l (List.mem_of_mem_filter hl)
    rw [hf, ht]
    rfl
  have hsum : ((sp.filter (fun l => l.visibleThisFrame && l.castShadows)).map
      (fun l => l.numShadowFaces)).sum =
      (sp.filter (fun l => l.visibleThisFrame && l.castShadows)).length := by
    rw [List.map_congr_left hone, List.map_const', List.sum_replicate,
      smul_eq_mul, mul_one]
  rw [hsum]
  unfold update
  dsimp only
  rw [if_pos hlen]

/-- Witness for C2: two visible shadow-casting spot lights. -/
theorem C2_update_subdivide_total_faces_witness :
    ([Light.mk 0 LightType.spot true true 1,
        Light.mk 1 LightType.spot true true 1].filter
        (fun l => l.visibleThisFrame && l.castShadows) ≠ []) ∧
    (∀ l ∈ [Light.mk 0 LightType.spot true true 1,
        Light.mk 1 LightType.spot true true 1],
      l.lightType = LightType.spot ∧
        l.numShadowFaces = specNumShadowFaces l.lightType) ∧
    (update (mkLightTextureAtlas ⟨true⟩)
        [Light.mk 0 LightType.spot true true 1,
          Light.mk 1 LightType.spot true true 1] []).subdivideArg =
      some ((([Light.mk 0 LightType.spot true true 1,
          Light.mk 1 LightType.spot true true 1].filter
          (fun l => l.visibleThisFrame && l.castShadows)).map
          (fun l => l.numShadowFaces)).sum) :=
  ⟨by decide, by decide,
    C2_update_subdivide_total_faces _ _ [] (by decide) (by decide)⟩

/-- C5: with a positive `shadowMapResolution`, every spot-light face
record written by `update` has its viewport equal to the assigned slot
shrunk inward by the margin `m = 4 / shadowMapResolution` on each edge
(`x += m, y += m, width −= 2m, height −= 2m`) while the scissor keeps
the full slot, so the viewport is strictly contained in the scissor. -/
theorem C5_spot_viewport_in_scissor (st : AtlasState) (sp om : List Light)
    (hres : 0 < st.shadowMapResolution) :
    ∀ r ∈ (update st sp om).records, r.lightType = LightType.spot →
      (r.shadowViewport.x = r.shadowScissor.x + 4 / st.shadowMapResolution ∧
       r.shadowViewport.y = r.shadowScissor.y + 4 / st.shadowMapResolution ∧
       r.shadowViewport.z = r.shadowScissor.z - 2 * (4 / st.shadowMapResolution) ∧
       r.shadowViewport.w = r.shadowScissor.w - 2 * (4 / st.shadowMapResolution)) ∧
      (r.shadowScissor.x < r.shadowViewport.x ∧
       r.shadowViewport.x + r.shadowViewport.z <
         r.shadowScissor.x + r.shadowScissor.z ∧
       r.shadowScissor.y < r.shadowViewport.y ∧
       r.shadowViewport.y + r.shadowViewport.w <
         r.shadowScissor.y + r.shadowScissor.w) := by
  intro r hr hspot
  rw [update_records_eq] at hr
  obtain ⟨hsc, hvp, _⟩ := assignFaces_mem _ _ _ _ _ r hr
  rw [if_pos hspot] at hvp
  have hm0 : 0 < 4 / st.shadowMapResolution := by positivity
  rw [hsc, hvp]
  refine ⟨⟨?_, ?_, ?_, ?_⟩, ?_, ?_, ?_, ?_⟩ <;> simp only [vecAdd] <;>
    first
      | rfl
      | linarith

/-- Witness for C5: a fresh atlas (resolution 2048) updated with one
visible shadow-casting spot light. -/
theorem C5_spot_viewport_in_scissor_witness :
    0 < (mkLightTextureAtlas ⟨true⟩).shadowMapResolution ∧
    (∀ r ∈ (update (mkLightTextureAtlas ⟨true⟩)
        [Light.mk 0 LightType.spot true true 1] []).records,
      r.lightType = LightType.spot →
      (r.shadowViewport.x = r.shadowScissor.x +
          4 / (mkLightTextureAtlas ⟨true⟩).shadowMapResolution ∧
       r.shadowViewport.y = r.shadowScissor.y +
          4 / (mkLightTextureAtlas ⟨true⟩).shadowMapResolution ∧
       r.shadowViewport.z = r.shadowScissor.z -
          2 * (4 / (mkLightTextureAtlas ⟨true⟩).shadowMapResolution) ∧
       r.shadowViewport.w = r.shadowScissor.w -
          2 * (4 / (mkLightTextureAtlas ⟨true⟩).shadowMapResolution)) ∧
      (r.shadowScissor.x < r.shadowViewport.x ∧
       r.shadowViewport.x + r.shadowViewport.z <
         r.shadowScissor.x + r.shadowScissor.z ∧
       r.shadowScissor.y < r.shadowViewport.y ∧
       r.shadowViewport.y + r.shadowViewport.w <
         r.shadowScissor.y + r.shadowScissor.w)) := by
  have hres : 0 < (mkLightTextureAtlas ⟨true⟩).shadowMapResolution := by
    simp [mkLightTextureAtlas, allocateShadowMap]
  exact ⟨hres,
    C5_spot_viewport_in_scissor (mkLightTextureAtlas ⟨true⟩)
      [Light.mk 0 LightType.spot true true 1] [] hres⟩

/-- C10: every state reachable from construction has a non-null shadow
map carrying a first render target, so the `updateUniforms` access to
`shadowMap.renderTargets[0]` — executed by every `update` call, also on
frames with zero qualifying lights — never dereferences a null shadow
map. -/
theorem C10_shadowMap_nonnull (st : AtlasState) (h : Reachable st) :
    ∃ sm, st.shadowMap = some sm ∧ sm.renderTargets.head?.isSome ∧
      (updateUniforms st).isSome := by
  have inv : ∃ sm, st.shadowMap = some sm ∧ sm.renderTargets ≠ [] := by
    induction h with
    | init device =>
        unfold mkLightTextureAtlas
        exact allocateShadowMap_inv _ 1 (fun sm hsm => Option.noConfusion hsm)
    | step_update st sp om hst ih => exact update_state_inv st sp om ih
    | step_allocate st r hst ih =>
        refine allocateShadowMap_inv st r ?_
        intro sm hsm
        obtain ⟨sm2, h2, hne⟩ := ih
        rw [hsm] at h2
        rw [Option.some_inj.mp h2]
        exact hne
    | step_subdivide st n hst ih => rw [subdivide_shadowMap]; exact ih
  obtain ⟨sm, hsm, hne⟩ := inv
  refine ⟨sm, hsm, ?_, ?_⟩
  · cases hl : sm.renderTargets with
    | nil => exact absurd hl hne
    | cons a t => simp [hl]
  · unfold updateUniforms
    rw [hsm]
    cases hl : sm.renderTargets with
    | nil => exact absurd hl hne
    | cons a t => simp [hl]

/-- Witness for C10: the freshly constructed atlas state. -/
theorem C10_shadowMap_nonnull_witness :
    ∃ sm, (mkLightTextureAtlas ⟨true⟩).shadowMap = some sm ∧
      sm.renderTargets.head?.isSome ∧
      (updateUniforms (mkLightTextureAtlas ⟨true⟩)).isSome :=
  C10_shadowMap_nonnull _ (Reachable.init ⟨true⟩)

/-- C8: calling `subdivide` twice with light counts mapping to the same
`gridSize = ceil(sqrt(numLights))` leaves the state of the second call —
slot list included — exactly as the first call left it; the rebuild
branch is not entered. -/
theorem C8_subdivide_stable (st : AtlasState) (n1 n2 : ℕ)
    (h : ceilSqrt n1 = ceilSqrt n2) :
    subdivide (subdivide st n1) n2 = subdivide st n1 :=
  subdivide_noop _ _ (by rw [subdivide_subdivision, h])

/-- C6: `update` walks the qualifying lights in list order and assigns
slots sequentially from index 0, writing each slot as the scissor (and the
margin-adjusted slot as the viewport, per the in-place spot shrink) and
setting each light's shadow-map back-reference to the shared texture.  For
5 qualifying single-face spot lights: `gridSize = 3`, 9 slots of size
`(1/3, 1/3)`, faces 0..4 receive slots 0..4 in row-major enumeration
order, and 4 of the 9 slots remain unused that frame. -/
theorem C6_update_five_spot_lights :
    (update (mkLightTextureAtlas ⟨true⟩)
        [Light.mk 0 LightType.spot true true 1,
          Light.mk 1 LightType.spot true true 1,
          Light.mk 2 LightType.spot true true 1,
          Light.mk 3 LightType.spot true true 1,
          Light.mk 4 LightType.spot true true 1] []).state.subdivision = 3 ∧
    (update (mkLightTextureAtlas ⟨true⟩)
        [Light.mk 0 LightType.spot true true 1,
          Light.mk 1 LightType.spot true true 1,
          Light.mk 2 LightType.spot true true 1,
          Light.mk 3 LightType.spot true true 1,
          Light.mk 4 LightType.spot true true 1] []).state.slots = gridSlots 3 ∧
    (update (mkLightTextureAtlas ⟨true⟩)
        [Light.mk 0 LightType.spot true true 1,
          Light.mk 1 LightType.spot true true 1,
          Light.mk 2 LightType.spot true true 1,
          Light.mk 3 LightType.spot true true 1,
          Light.mk 4 LightType.spot true true 1] []).state.slots.length = 9 ∧
    (update (mkLightTextureAtlas ⟨true⟩)
        [Light.mk 0 LightType.spot true true 1,
          Light.mk 1 LightType.spot true true 1,
          Light.mk 2 LightType.spot true true 1,
          Light.mk 3 LightType.spot true true 1,
          Light.mk 4 LightType.spot true true 1] []).usedCount = 5 ∧
    (update (mkLightTextureAtlas ⟨true⟩)
        [Light.mk 0 LightType.spot true true 1,
          Light.mk 1 LightType.spot true true 1,
          Light.mk 2 LightType.spot true true 1,
          Light.mk 3 LightType.spot true true 1,
          Light.mk 4 LightType.spot true true 1] []).records =
      [{ lightId := 0, lightType := LightType.spot, face := 0, slotIndex := 0,
          shadowViewport := vecAdd (slotAt 3 0 0)
            ⟨4 / 2048, 4 / 2048, -2 * (4 / 2048), -2 * (4 / 2048)⟩,
          shadowScissor := slotAt 3 0 0,
          shadowMapRef :=
            some { textureWidth := 2048, renderTargets := [⟨0, 0⟩], cached := false } },
        { lightId := 1, lightType := LightType.spot, face := 0, slotIndex := 1,
          shadowViewport := vecAdd (slotAt 3 0 1)
            ⟨4 / 2048, 4 / 2048, -2 * (4 / 2048), -2 * (4 / 2048)⟩,
          shadowScissor := slotAt 3 0 1,
          shadowMapRef :=
            some { textureWidth := 2048, renderTargets := [⟨0, 0⟩], cached := false } },
        { lightId := 2, lightType := LightType.spot, face := 0, slotIndex := 2,
          shadowViewport := vecAdd (slotAt 3 0 2)
            ⟨4 / 2048, 4 / 2048, -2 * (4 / 2048), -2 * (4 / 2048)⟩,
          shadowScissor := slotAt 3 0 2,
          shadowMapRef :=
            some { textureWidth := 2048, renderTargets := [⟨0, 0⟩], cached := false } },
        { lightId := 3, lightType := LightType.spot, face := 0, slotIndex := 3,
          shadowViewport := vecAdd (slotAt 3 1 0)
            ⟨4 / 2048, 4 / 2048, -2 * (4 / 2048), -2 * (4 / 2048)⟩,
          shadowScissor := slotAt 3 1 0,
          shadowMapRef :=
            some { textureWidth := 2048, renderTargets := [⟨0, 0⟩], cached := false } },
        { lightId := 4, lightType := LightType.spot, face := 0, slotIndex := 4,
          shadowViewport := vecAdd (slotAt 3 1 1)
            ⟨4 / 2048, 4 / 2048, -2 * (4 / 2048), -2 * (4 / 2048)⟩,
          shadowScissor := slotAt 3 1 1,
          shadowMapRef :=
            some { textureWidth := 2048, renderTargets := [⟨0, 0⟩], cached := false } }] ∧
    (∀ r ∈ (update (mkLightTextureAtlas ⟨true⟩)
        [Light.mk 0 LightType.spot true true 1,
          Light.mk 1 LightType.spot true true 1,
          Light.mk 2 LightType.spot true true 1,
          Light.mk 3 LightType.spot true true 1,
          Light.mk 4 LightType.spot true true 1] []).records,
      r.shadowMapRef =
        (update (mkLightTextureAtlas ⟨true⟩)
          [Light.mk 0 LightType.spot true true 1,
            Light.mk 1 LightType.spot true true 1,
            Light.mk 2 LightType.spot true true 1,
            Light.mk 3 LightType.spot true true 1,
            Light.mk 4 LightType.spot true true 1] []).state.shadowMap) := by
  norm_num [update, mkLightTextureAtlas, allocateShadowMap, createAtlasShadowMap,
    subdivide, ceilSqrt_five, gridSlots, assignFaces, slotAt, vecAdd,
    List.range_succ, List.filter, updateUniforms]

/-- Witness for C8: `numLights` 5 then 6 both give `gridSize = 3`. -/
theorem C8_subdivide_stable_witness :
    ceilSqrt 5 = ceilSqrt 6 ∧
      subdivide (subdivide (mkLightTextureAtlas ⟨true⟩) 5) 6 =
        subdivide (mkLightTextureAtlas ⟨true⟩) 5 :=
  ⟨by rw [ceilSqrt_five, ceilSqrt_six],
    C8_subdivide_stable _ 5 6 (by rw [ceilSqrt_five, ceilSqrt_six])⟩

/-! ## EnvLighting lemmas -/

theorem log2_256 : Nat.log 2 256 = 8 :=
  Nat.log_eq_of_pow_le_of_lt_pow (by norm_num) (by norm_num)

theorem log2_4 : Nat.log 2 4 = 2 :=
  Nat.log_eq_of_pow_le_of_lt_pow (by norm_num) (by norm_num)

theorem log2_512 : Nat.log 2 512 = 9 :=
  Nat.log_eq_of_pow_le_of_lt_pow (by norm_num) (by norm_num)

theorem atlas_levels : calcLevels 256 - calcLevels 4 = 6 := by
  simp [calcLevels, log2_256, log2_4]

theorem prefiltered_levels : calcLevels 512 = 10 := by
  simp [calcLevels, log2_512]

theorem mipLoop_length (s : ℚ) (n : ℕ) (r : Vec4Q) : (mipLoop s n r).length = n := by
  induction n generalizing r with
  | zero => rfl
  | succ n ih => simp [mipLoop, ih]

theorem mipLoop_getD_rect (s : ℚ) (d : ReprojectCall) (n k : ℕ) (r : Vec4Q)
    (h : k < n) : ((mipLoop s n r).getD k d).rect = mipAdvance^[k] r := by
  induction n generalizing r k with
  | zero => omega
  | succ n ih =>
      cases k with
      | zero => rfl
      | succ k =>
          have hrec := ih k (mipAdvance r) (by omega)
          simpa [mipLoop, Function.iterate_succ_apply] using hrec

theorem reflLoop_length (ns : ℕ) (dist : Distribution) (s : ℚ) (n i : ℕ)
    (r : Vec4Q) : (reflLoop ns dist s n i r).length = n := by
  induction n generalizing r i with
  | zero => rfl
  | succ n ih => simp [reflLoop, ih]

theorem reflLoop_getD_rect (ns : ℕ) (dist : Distribution) (s : ℚ)
    (d : ReprojectCall) (n k i : ℕ) (r : Vec4Q) (h : k < n) :
    ((reflLoop ns dist s n i r).getD k d).rect = reflAdvance^[k] r := by
  induction n generalizing r k i with
  | zero => omega
  | succ n ih =>
      cases k with
      | zero => rfl
      | succ k =>
          have hrec := ih k (i + 1) (reflAdvance r) (by omega)
          simpa [reflLoop, Function.iterate_succ_apply] using hrec

theorem halveClamp_eq (q b : ℚ) (n : ℕ) (hq : q = 2 * b) (hb : b = (n : ℚ))
    (hn : 1 ≤ n) (m : ℕ) (hm : 1 ≤ m) : halveClamp (q * m) = b * m := by
  rw [hq, hb]
  unfold halveClamp
  have h2 : 2 * ((n : ℚ)) * m * (1/2) = ((n * m : ℕ) : ℚ) := by push_cast; ring
  rw [h2, Int.floor_natCast]
  have h1 : (1 : ℚ) ≤ (n : ℚ) * m := by
    have : 1 ≤ n * m := Nat.one_le_iff_ne_zero.mpr (by positivity)
    exact_mod_cast this
  push_cast
  rw [max_eq_right h1]

theorem mipAdvance_sq (m : ℕ) (x z w x2 z2 w2 : ℚ) (hx : x + w = x2)
    (hz : halveClamp (z * m) = z2 * m) (hw : halveClamp (w * m) = w2 * m) :
    mipAdvance ⟨x * (m : ℚ), x * m, z * m, w * m⟩ =
      ⟨x2 * m, x2 * m, z2 * m, w2 * m⟩ := by
  dsimp only [mipAdvance]
  rw [hz, hw, Vec4Q.mk.injEq]
  refine ⟨?_, ?_, rfl, rfl⟩ <;> rw [← hx] <;> ring

theorem reflAdvance_zx (m : ℕ) (y z w y2 z2 w2 : ℚ) (hy : y + w = y2)
    (hz : halveClamp (z * m) = z2 * m) (hw : halveClamp (w * m) = w2 * m) :
    reflAdvance ⟨0, y * (m : ℚ), z * m, w * m⟩ =
      ⟨0, y2 * m, z2 * m, w2 * m⟩ := by
  dsimp only [reflAdvance]
  rw [hz, hw, Vec4Q.mk.injEq]
  refine ⟨rfl, ?_, rfl, rfl⟩
  rw [← hy]
  ring

theorem mipLoop_rects_succ (s : ℚ) (n : ℕ) (r : Vec4Q) :
    (mipLoop s (n + 1) r).map (fun c => c.rect) =
      r :: (mipLoop s n (mipAdvance r)).map (fun c => c.rect) := rfl

theorem reflLoop_rects_succ (ns : ℕ) (dist : Distribution) (s : ℚ) (n i : ℕ)
    (r : Vec4Q) :
    (reflLoop ns dist s (n + 1) i r).map (fun c => c.rect) =
      r :: (reflLoop ns dist s n (i + 1) (reflAdvance r)).map (fun c => c.rect) := rfl

theorem atlasMipSection_rects (m : ℕ) (hm : 1 ≤ m) :
    (atlasMipSection (m : ℚ)).map (fun c => c.rect) =
      [⟨0, 0, 512 * (m : ℚ), 256 * m⟩, ⟨256 * m, 256 * m, 256 * m, 128 * m⟩,
        ⟨384 * m, 384 * m, 128 * m, 64 * m⟩, ⟨448 * m, 448 * m, 64 * m, 32 * m⟩,
        ⟨480 * m, 480 * m, 32 * m, 16 * m⟩,
        ⟨496 * m, 496 * m, 16 * m, 8 * m⟩] := by
  have e512 := halveClamp_eq 512 256 256 (by norm_num) (by norm_num) (by norm_num) m hm
  have e256 := halveClamp_eq 256 128 128 (by norm_num) (by norm_num) (by norm_num) m hm
  have e128 := halveClamp_eq 128 64 64 (by norm_num) (by norm_num) (by norm_num) m hm
  have e64 := halveClamp_eq 64 32 32 (by norm_num) (by norm_num) (by norm_num) m hm
  have e32 := halveClamp_eq 32 16 16 (by norm_num) (by norm_num) (by norm_num) m hm
  have h1 : mipAdvance ⟨0, 0, 512 * (m : ℚ), 256 * (m : ℚ)⟩ =
      ⟨256 * (m : ℚ), 256 * m, 256 * m, 128 * m⟩ := by
    dsimp only [mipAdvance]
    rw [e512, e256, Vec4Q.mk.injEq]
    refine ⟨by ring, by ring, rfl, rfl⟩
  have h2 := mipAdvance_sq m 256 256 128 384 128 64 (by norm_num) e256 e128
  have h3 := mipAdvance_sq m 384 128 64 448 64 32 (by norm_num) e128 e64
  have h4 := mipAdvance_sq m 448 64 32 480 32 16 (by norm_num) e64 e32
  have h5 := mipAdvance_sq m 480 32 16 496 16 8 (by norm_num) e32
    (halveClamp_eq 16 8 8 (by norm_num) (by norm_num) (by norm_num) m hm)
  unfold atlasMipSection
  rw [atlas_levels]
  rw [show (6 : ℕ) = 5 + 1 from rfl, mipLoop_rects_succ, h1]
  rw [show (5 : ℕ) = 4 + 1 from rfl, mipLoop_rects_succ, h2]
  rw [show (4 : ℕ) = 3 + 1 from rfl, mipLoop_rects_succ, h3]
  rw [show (3 : ℕ) = 2 + 1 from rfl, mipLoop_rects_succ, h4]
  rw [show (2 : ℕ) = 1 + 1 from rfl, mipLoop_rects_succ, h5]
  rw [show (1 : ℕ) = 0 + 1 from rfl, mipLoop_rects_succ]
  rfl

theorem reflLoop_rects (ns : ℕ) (dist : Distribution) (m : ℕ) (hm : 1 ≤ m) :
    (reflLoop ns dist (m : ℚ) 6 1 ⟨0, 256 * (m : ℚ), 256 * m, 128 * m⟩).map
        (fun c => c.rect) =
      [⟨0, 256 * (m : ℚ), 256 * m, 128 * m⟩, ⟨0, 384 * m, 128 * m, 64 * m⟩,
        ⟨0, 448 * m, 64 * m, 32 * m⟩, ⟨0, 480 * m, 32 * m, 16 * m⟩,
        ⟨0, 496 * m, 16 * m, 8 * m⟩, ⟨0, 504 * m, 8 * m, 4 * m⟩] := by
  have e256 := halveClamp_eq 256 128 128 (by norm_num) (by norm_num) (by norm_num) m hm
  have e128 := halveClamp_eq 128 64 64 (by norm_num) (by norm_num) (by norm_num) m hm
  have e64 := halveClamp_eq 64 32 32 (by norm_num) (by norm_num) (by norm_num) m hm
  have e32 := halveClamp_eq 32 16 16 (by norm_num) (by norm_num) (by norm_num) m hm
  have e16 := halveClamp_eq 16 8 8 (by norm_num) (by norm_num) (by norm_num) m hm
  have e8 := halveClamp_eq 8 4 4 (by norm_num) (by norm_num) (by norm_num) m hm
  have g1 := reflAdvance_zx m 256 256 128 384 128 64 (by norm_num) e256 e128
  have g2 := reflAdvance_zx m 384 128 64 448 64 32 (by norm_num) e128 e64
  have g3 := reflAdvance_zx m 448 64 32 480 32 16 (by norm_num) e64 e32
  have g4 := reflAdvance_zx m 480 32 16 496 16 8 (by norm_num) e32 e16
  have g5 := reflAdvance_zx m 496 16 8 504 8 4 (by norm_num) e16 e8
  rw [show (6 : ℕ) = 5 + 1 from rfl, reflLoop_rects_succ, g1]
  rw [show (5 : ℕ) = 4 + 1 from rfl, reflLoop_rects_succ, g2]
  rw [show (4 : ℕ) = 3 + 1 from rfl, reflLoop_rects_succ, g3]
  rw [show (3 : ℕ) = 2 + 1 from rfl, reflLoop_rects_succ, g4]
  rw [show (2 : ℕ) = 1 + 1 from rfl, reflLoop_rects_succ, g5]
  rw [show (1 : ℕ) = 0 + 1 from rfl, reflLoop_rects_succ]
  rfl

theorem generateAtlasCalls_rects (m : ℕ) (hm : 1 ≤ m) :
    (generateAtlasCalls { size := 512 * m }).map (fun c => c.rect) =
      atlasQuads.map (quadToRect m) := by
  have hs : ((512 * m : ℕ) : ℚ) / 512 = (m : ℚ) := by
    push_cast
    ring
  unfold generateAtlasCalls
  dsimp only
  rw [hs, List.map_append, List.map_append, atlasMipSection_rects m hm]
  rw [show atlasReflSection { size := 512 * m } (m : ℚ) =
      reflLoop 1024 Distribution.ggx (m : ℚ) 6 1
        ⟨0, 256 * (m : ℚ), 256 * m, 128 * m⟩ from rfl]
  rw [reflLoop_rects 1024 Distribution.ggx m hm]
  simp only [atlasQuads, quadToRect, atlasAmbientCall, List.map_cons, List.map_nil,
    List.cons_append, List.nil_append, List.map]
  norm_num

theorem normRect_inBounds (size : ℚ) (r : Vec4Q) (hs : 0 < size)
    (h : rectInBounds size r) : rectInBounds 1 (normRect size r) := by
  obtain ⟨h1, h2, h3, h4⟩ := h
  refine ⟨div_nonneg h1 hs.le, div_nonneg h2 hs.le, ?_, ?_⟩ <;>
    simp only [normRect] <;> rw [div_add_div_same, div_le_one hs] <;> assumption

theorem quadToRect_overlap_iff (m : ℕ) (hm : 1 ≤ m) (a b : NatQuad) :
    rectsOverlap (quadToRect m a) (quadToRect m b) ↔ natQuadsOverlap a b := by
  have hmq : (0 : ℚ) < (m : ℚ) := by exact_mod_cast hm
  have key : ∀ x y z : ℕ, ((x : ℚ) * m < (y : ℚ) * m + (z : ℚ) * m) ↔ x < y + z := by
    intro x y z
    rw [show (y : ℚ) * m + (z : ℚ) * m = ((y + z : ℕ) : ℚ) * m by push_cast; ring,
      mul_lt_mul_right hmq, Nat.cast_lt]
  simp only [rectsOverlap, natQuadsOverlap, quadToRect]
  rw [key, key, key, key]

/-- C4: for every atlas size `512 · 2^k`, the 13 destination rectangles
emitted by one default-options `generateAtlas` pass (6 mip-pyramid, 6
reflection-band, 1 ambient) are mutually non-overlapping and each lies
within the `size × size` atlas bounds — equivalently within
`[0,1] × [0,1]` after normalising by the atlas size. -/
theorem C4_atlas_rects_disjoint_and_bounded (k : ℕ) :
    ((generateAtlasCalls { size := 512 * 2 ^ k }).map (fun c => c.rect)).length = 13 ∧
    List.Pairwise (fun a b => ¬ rectsOverlap a b)
      ((generateAtlasCalls { size := 512 * 2 ^ k }).map (fun c => c.rect)) ∧
    ∀ r ∈ (generateAtlasCalls { size := 512 * 2 ^ k }).map (fun c => c.rect),
      rectInBounds ((512 * 2 ^ k : ℕ) : ℚ) r ∧
      rectInBounds 1 (normRect ((512 * 2 ^ k : ℕ) : ℚ) r) := by
  have hm : 1 ≤ 2 ^ k := Nat.one_le_two_pow
  have hmq : (0 : ℚ) < ((2 ^ k : ℕ) : ℚ) := by exact_mod_cast hm
  have hsize : (0 : ℚ) < ((512 * 2 ^ k : ℕ) : ℚ) := by
    have : 0 < 512 * 2 ^ k := by positivity
    exact_mod_cast this
  rw [generateAtlasCalls_rects (2 ^ k) hm]
  refine ⟨rfl, ?_, ?_⟩
  · rw [List.pairwise_map]
    have hq : List.Pairwise (fun a b => ¬ natQuadsOverlap a b) atlasQuads := by decide
    exact hq.imp fun hn ho => hn ((quadToRect_overlap_iff _ hm _ _).mp ho)
  · intro r hr
    obtain ⟨q, hq, rfl⟩ := List.mem_map.mp hr
    have hb : ∀ p ∈ atlasQuads, p.1 + p.2.2.1 ≤ 512 ∧ p.2.1 + p.2.2.2 ≤ 512 := by
      decide
    obtain ⟨hb1, hb2⟩ := hb q hq
    have hpix : rectInBounds ((512 * 2 ^ k : ℕ) : ℚ) (quadToRect (2 ^ k) q) := by
      refine ⟨mul_nonneg (Nat.cast_nonneg _) (Nat.cast_nonneg _),
        mul_nonneg (Nat.cast_nonneg _) (Nat.cast_nonneg _), ?_, ?_⟩
      · calc (q.1 : ℚ) * (2 ^ k : ℕ) + (q.2.2.1 : ℚ) * (2 ^ k : ℕ)
            = ((q.1 : ℚ) + q.2.2.1) * (2 ^ k : ℕ) := by ring
          _ ≤ 512 * (2 ^ k : ℕ) := by
              refine mul_le_mul_of_nonneg_right ?_ hmq.le
              exact_mod_cast hb1
          _ = ((512 * 2 ^ k : ℕ) : ℚ) := by push_cast; ring
      · calc (q.2.1 : ℚ) * (2 ^ k : ℕ) + (q.2.2.2 : ℚ) * (2 ^ k : ℕ)
            = ((q.2.1 : ℚ) + q.2.2.2) * (2 ^ k : ℕ) := by ring
          _ ≤ 512 * (2 ^ k : ℕ) := by
              refine mul_le_mul_of_nonneg_right ?_ hmq.le
              exact_mod_cast hb2
          _ = ((512 * 2 ^ k : ℕ) : ℚ) := by push_cast; ring
    exact ⟨hpix, normRect_inBounds _ _ hsize hpix⟩

theorem mipLoop_samples (s : ℚ) (n : ℕ) (r : Vec4Q) :
    (mipLoop s n r).map (fun c => c.numSamples) = List.replicate n 1 := by
  induction n generalizing r with
  | zero => rfl
  | succ n ih => simp [mipLoop, ih, List.replicate_succ]

theorem mipLoop_distribution (s : ℚ) (n : ℕ) (r : Vec4Q) :
    (mipLoop s n r).map (fun c => c.distribution) =
      List.replicate n Option.none := by
  induction n generalizing r with
  | zero => rfl
  | succ n ih => simp [mipLoop, ih, List.replicate_succ]

theorem mipLoop_specular (s : ℚ) (n : ℕ) (r : Vec4Q) :
    (mipLoop s n r).map (fun c => c.specularPower) =
      List.replicate n Option.none := by
  induction n generalizing r with
  | zero => rfl
  | succ n ih => simp [mipLoop, ih, List.replicate_succ]

theorem reflLoop_samples (ns : ℕ) (dist : Distribution) (s : ℚ) (n i : ℕ)
    (r : Vec4Q) :
    (reflLoop ns dist s n i r).map (fun c => c.numSamples) =
      List.replicate n ns := by
  induction n generalizing i r with
  | zero => rfl
  | succ n ih => simp [reflLoop, ih, List.replicate_succ]

theorem reflLoop_distribution (ns : ℕ) (dist : Distribution) (s : ℚ) (n i : ℕ)
    (r : Vec4Q) :
    (reflLoop ns dist s n i r).map (fun c => c.distribution) =
      List.replicate n (some dist) := by
  induction n generalizing i r with
  | zero => rfl
  | succ n ih => simp [reflLoop, ih, List.replicate_succ]

theorem reflLoop_specular (ns : ℕ) (dist : Distribution) (s : ℚ) (n i : ℕ)
    (r : Vec4Q) :
    (reflLoop ns dist s n i r).map (fun c => c.specularPower) =
      (List.range' i n).map (fun j => some (max 1 (2048 >>> (j * 2)))) := by
  induction n generalizing i r with
  | zero => rfl
  | succ n ih => simp [reflLoop, ih, List.range'_succ]

/-- C7: scaling the `generateAtlas` size from 512 to 1024 multiplies
every emitted destination rectangle's components by exactly 2, while the
number of resampling invocations (13, in the same order) and every
sample-count, distribution and specular-power parameter passed to the
resampler stay identical. -/
theorem C7_atlas_scale_512_to_1024 :
    (generateAtlasCalls { size := 1024 }).map (fun c => c.rect) =
      ((generateAtlasCalls { size := 512 }).map (fun c => c.rect)).map
        (scaleRect 2) ∧
    (generateAtlasCalls { size := 512 }).length = 13 ∧
    (generateAtlasCalls { size := 1024 }).length = 13 ∧
    (generateAtlasCalls { size := 1024 }).map (fun c => c.numSamples) =
      (generateAtlasCalls { size := 512 }).map (fun c => c.numSamples) ∧
    (generateAtlasCalls { size := 1024 }).map (fun c => c.distribution) =
      (generateAtlasCalls { size := 512 }).map (fun c => c.distribution) ∧
    (generateAtlasCalls { size := 1024 }).map (fun c => c.specularPower) =
      (generateAtlasCalls { size := 512 }).map (fun c => c.specularPower) := by
  have e512 : ({ size := 512 } : AtlasOptions) = { size := 512 * 1 } := rfl
  have e1024 : ({ size := 1024 } : AtlasOptions) = { size := 512 * 2 } := rfl
  have r1 := generateAtlasCalls_rects 1 (by norm_num)
  have r2 := generateAtlasCalls_rects 2 (by norm_num)
  have hlen1 : (generateAtlasCalls { size := 512 * 1 }).length = 13 := by
    rw [← List.length_map (generateAtlasCalls { size := 512 * 1 })
      (fun c => c.rect), r1]
    rfl
  have hlen2 : (generateAtlasCalls { size := 512 * 2 }).length = 13 := by
    rw [← List.length_map (generateAtlasCalls { size := 512 * 2 })
      (fun c => c.rect), r2]
    rfl
  refine ⟨?_, ?_, ?_, ?_, ?_, ?_⟩
  · rw [e512, e1024, r1, r2, List.map_map]
    refine List.map_congr_left fun q _ => ?_
    simp only [quadToRect, Function.comp, scaleRect, Vec4Q.mk.injEq]
    push_cast
    refine ⟨by ring, by ring, by ring, by ring⟩
  · rw [e512]; exact hlen1
  · rw [e1024]; exact hlen2
  · rw [e512, e1024]
    unfold generateAtlasCalls
    dsimp only
    simp only [List.map_append, mipLoop_samples, reflLoop_samples,
      atlasMipSection, atlasReflSection]
    rfl
  · rw [e512, e1024]
    unfold generateAtlasCalls
    dsimp only
    simp only [List.map_append, mipLoop_distribution, reflLoop_distribution,
      atlasMipSection, atlasReflSection]
    rfl
  · rw [e512, e1024]
    unfold generateAtlasCalls
    dsimp only
    simp only [List.map_append, mipLoop_specular, reflLoop_specular,
      atlasMipSection, atlasReflSection]
    rfl

/-- C3 (amended): in the mip-pyramid loops of `generateAtlas` and
`generatePrefilteredAtlas`, each emitted rectangle follows from its
predecessor by a diagonal advance by the predecessor's HEIGHT (the
source's `rect.w`): `x += height`, `y += height`, then width and height
are halved with floor, clamped to a minimum of 1.  (The claim's advance
by the width `rect.z` is refuted by the counterexample theorem.) -/
theorem C3_mip_loop_advances_by_height :
    (∀ (s : ℚ) (k : ℕ), k + 1 < (atlasMipSection s).length →
      ((atlasMipSection s).getD (k + 1) ⟨⟨0, 0, 0, 0⟩, 0, Option.none, Option.none, 0⟩).rect.x =
        ((atlasMipSection s).getD k ⟨⟨0, 0, 0, 0⟩, 0, Option.none, Option.none, 0⟩).rect.x +
        ((atlasMipSection s).getD k ⟨⟨0, 0, 0, 0⟩, 0, Option.none, Option.none, 0⟩).rect.w ∧
      ((atlasMipSection s).getD (k + 1) ⟨⟨0, 0, 0, 0⟩, 0, Option.none, Option.none, 0⟩).rect.y =
        ((atlasMipSection s).getD k ⟨⟨0, 0, 0, 0⟩, 0, Option.none, Option.none, 0⟩).rect.y +
        ((atlasMipSection s).getD k ⟨⟨0, 0, 0, 0⟩, 0, Option.none, Option.none, 0⟩).rect.w ∧
      ((atlasMipSection s).getD (k + 1) ⟨⟨0, 0, 0, 0⟩, 0, Option.none, Option.none, 0⟩).rect.z =
        max 1 ((⌊((atlasMipSection s).getD k ⟨⟨0, 0, 0, 0⟩, 0, Option.none, Option.none, 0⟩).rect.z * (1/2 : ℚ)⌋ : ℤ) : ℚ) ∧
      ((atlasMipSection s).getD (k + 1) ⟨⟨0, 0, 0, 0⟩, 0, Option.none, Option.none, 0⟩).rect.w =
        max 1 ((⌊((atlasMipSection s).getD k ⟨⟨0, 0, 0, 0⟩, 0, Option.none, Option.none, 0⟩).rect.w * (1/2 : ℚ)⌋ : ℤ) : ℚ)) ∧
    (∀ (s : ℚ) (k : ℕ), k + 1 < (prefilteredMipSection s).length →
      ((prefilteredMipSection s).getD (k + 1) ⟨⟨0, 0, 0, 0⟩, 0, Option.none, Option.none, 0⟩).rect.x =
        ((prefilteredMipSection s).getD k ⟨⟨0, 0, 0, 0⟩, 0, Option.none, Option.none, 0⟩).rect.x +
        ((prefilteredMipSection s).getD k ⟨⟨0, 0, 0, 0⟩, 0, Option.none, Option.none, 0⟩).rect.w ∧
      ((prefilteredMipSection s).getD (k + 1) ⟨⟨0, 0, 0, 0⟩, 0, Option.none, Option.none, 0⟩).rect.y =
        ((prefilteredMipSection s).getD k ⟨⟨0, 0, 0, 0⟩, 0, Option.none, Option.none, 0⟩).rect.y +
        ((prefilteredMipSection s).getD k ⟨⟨0, 0, 0, 0⟩, 0, Option.none, Option.none, 0⟩).rect.w ∧
      ((prefilteredMipSection s).getD (k + 1) ⟨⟨0, 0, 0, 0⟩, 0, Option.none, Option.none, 0⟩).rect.z =
        max 1 ((⌊((prefilteredMipSection s).getD k ⟨⟨0, 0, 0, 0⟩, 0, Option.none, Option.none, 0⟩).rect.z * (1/2 : ℚ)⌋ : ℤ) : ℚ) ∧
      ((prefilteredMipSection s).getD (k + 1) ⟨⟨0, 0, 0, 0⟩, 0, Option.none, Option.none, 0⟩).rect.w =
        max 1 ((⌊((prefilteredMipSection s).getD k ⟨⟨0, 0, 0, 0⟩, 0, Option.none, Option.none, 0⟩).rect.w * (1/2 : ℚ)⌋ : ℤ) : ℚ)) := by
  constructor
  · intro s k h
    rw [atlasMipSection, mipLoop_length] at h
    rw [atlasMipSection, mipLoop_getD_rect _ _ _ _ _ h,
      mipLoop_getD_rect _ _ _ _ _ (by omega), Function.iterate_succ_apply']
    exact ⟨rfl, rfl, rfl, rfl⟩
  · intro s k h
    rw [prefilteredMipSection, mipLoop_length] at h
    rw [prefilteredMipSection, mipLoop_getD_rect _ _ _ _ _ h,
      mipLoop_getD_rect _ _ _ _ _ (by omega), Function.iterate_succ_apply']
    exact ⟨rfl, rfl, rfl, rfl⟩

/-- Witness for C3 (amended): the first advance of the `generateAtlas`
mip loop at reference size 512. -/
theorem C3_mip_loop_advances_by_height_witness :
    (0 + 1 < (atlasMipSection 1).length) ∧
    (((atlasMipSection 1).getD (0 + 1) ⟨⟨0, 0, 0, 0⟩, 0, Option.none, Option.none, 0⟩).rect.x =
      ((atlasMipSection 1).getD 0 ⟨⟨0, 0, 0, 0⟩, 0, Option.none, Option.none, 0⟩).rect.x +
      ((atlasMipSection 1).getD 0 ⟨⟨0, 0, 0, 0⟩, 0, Option.none, Option.none, 0⟩).rect.w ∧
    ((atlasMipSection 1).getD (0 + 1) ⟨⟨0, 0, 0, 0⟩, 0, Option.none, Option.none, 0⟩).rect.y =
      ((atlasMipSection 1).getD 0 ⟨⟨0, 0, 0, 0⟩, 0, Option.none, Option.none, 0⟩).rect.y +
      ((atlasMipSection 1).getD 0 ⟨⟨0, 0, 0, 0⟩, 0, Option.none, Option.none, 0⟩).rect.w ∧
    ((atlasMipSection 1).getD (0 + 1) ⟨⟨0, 0, 0, 0⟩, 0, Option.none, Option.none, 0⟩).rect.z =
      max 1 ((⌊((atlasMipSection 1).getD 0 ⟨⟨0, 0, 0, 0⟩, 0, Option.none, Option.none, 0⟩).rect.z * (1/2 : ℚ)⌋ : ℤ) : ℚ) ∧
    ((atlasMipSection 1).getD (0 + 1) ⟨⟨0, 0, 0, 0⟩, 0, Option.none, Option.none, 0⟩).rect.w =
      max 1 ((⌊((atlasMipSection 1).getD 0 ⟨⟨0, 0, 0, 0⟩, 0, Option.none, Option.none, 0⟩).rect.w * (1/2 : ℚ)⌋ : ℤ) : ℚ)) := by
  have hlen : 0 + 1 < (atlasMipSection 1).length := by
    rw [atlasMipSection, mipLoop_length, atlas_levels]
    norm_num
  exact ⟨hlen, C3_mip_loop_advances_by_height.1 1 0 hlen⟩

/-- Counterexample for C3 as stated: in the `generateAtlas` mip loop at
reference size 512, the second rectangle's `x` is NOT the first
rectangle's `x` plus its width (`rect.z = 512`); the code advances by the
height (`rect.w = 256`) instead. -/
theorem C3_counterexample_not_advance_by_width :
    ¬ (((atlasMipSection 1).getD 1 ⟨⟨0, 0, 0, 0⟩, 0, Option.none, Option.none, 0⟩).rect.x =
        ((atlasMipSection 1).getD 0 ⟨⟨0, 0, 0, 0⟩, 0, Option.none, Option.none, 0⟩).rect.x +
        ((atlasMipSection 1).getD 0 ⟨⟨0, 0, 0, 0⟩, 0, Option.none, Option.none, 0⟩).rect.z) := by
  have h1 : (1 : ℕ) < calcLevels 256 - calcLevels 4 := by rw [atlas_levels]; norm_num
  rw [atlasMipSection, mipLoop_getD_rect _ _ _ _ _ h1,
    mipLoop_getD_rect _ _ _ _ _ (by omega)]
  simp [mipAdvance, halveClamp]

end Engine
